import Mathlib

/-!
Verification of the CosmicDataRelay scheduling, failure-recovery and delivery
core against its natural-language specification.  The definitions below are a
shallow embedding of the TypeScript sources:

* `src/config/index.ts`     — config resolution (`resolveSourceConfig`);
* `src/scheduler/scheduler.ts` — the tick loop and `runSource` state updates;
* `src/crawler/crawler.ts`  — one crawl attempt (`crawlSource`);
* the Fastify API server (`createApiServer`) — `latest` / `history` endpoints;
* `src/ws/wsServer.ts`      — the WebSocket connect protocol.

Times are milliseconds since epoch, represented as `Int`; machine counters are
`Nat`.  Randomness (jitter) and I/O outcomes (store writes, navigation,
selector reads) are passed in as explicit parameters, so every definition is
executable.
-/

/-- Modelled from the spec: `src/shared/constants.ts` is not among the provided
sources.  The repository README and the spec fix the global crawl-interval
floor at 20 seconds (`effectiveIntervalMs = max(20_000ms, schedule.intervalMs)`). -/
def MIN_CRAWL_INTERVAL_MS : Nat := 20000

/-- Modelled from the spec: `src/shared/constants.ts` is not among the provided
sources.  The repository README and the spec fix the retention window at four
hours. -/
def RETENTION_WINDOW_MS : Nat := 14400000

/-- `24 * 60 * 60 * 1000`, the pause applied at the failure limit
(`scheduler.ts`, `runSource`). -/
def PAUSE_MS : Nat := 24 * 60 * 60 * 1000

/-- The `schedule` block of a YAML source config (`scheduleSchema` in
`src/config/index.ts`).  `backoffMultiplier` is an integer here; every config
exercised by the spec uses the default `2`. -/
structure Schedule where
  intervalMs : Nat
  jitterMs : Nat
  backoffMultiplier : Nat
  maxBackoffMs : Nat
  failureLimit : Nat
deriving DecidableEq

/-- `ResolvedSchedule` from `src/config/index.ts`: the configured schedule plus
the derived `effectiveIntervalMs`. -/
structure ResolvedSchedule where
  base : Schedule
  effectiveIntervalMs : Nat
deriving DecidableEq

/-- The fields of `SourceConfig` (`sourceSchema`) that the scheduling claims
depend on.  Browser options, selectors, parse rules and the output schema are
modelled separately with the crawler. -/
structure SourceConfig where
  id : Nat
  allowedToScrape : Bool
  enabled : Bool
  schedule : Schedule
deriving DecidableEq

/-- The corresponding fields of `ResolvedSourceConfig`. -/
structure ResolvedSourceConfig where
  id : Nat
  enabled : Bool
  schedule : ResolvedSchedule
deriving DecidableEq

/-- `resolveSourceConfig` (`src/config/index.ts`, lines 121–143):
`effectiveIntervalMs = Math.max(MIN_CRAWL_INTERVAL_MS, schedule.intervalMs)`
and `enabled = allowedToScrape && enabled`. -/
def resolveSourceConfig (cfg : SourceConfig) : ResolvedSourceConfig :=
  { id := cfg.id
    enabled := cfg.allowedToScrape && cfg.enabled
    schedule :=
      { base := cfg.schedule
        effectiveIntervalMs := Nat.max MIN_CRAWL_INTERVAL_MS cfg.schedule.intervalMs } }

/-- The scheduler's per-source runtime record (`SchedulerState` in
`scheduler.ts`) extended with `active`, the number of dispatched-but-not-yet
completed runs of the source; the code keeps no such field, the model uses it
only to observe run overlap. -/
structure SchedulerState where
  nextRun : Int
  failures : Nat
  active : Nat
deriving DecidableEq

/-- The success branch of `runSource` (`scheduler.ts`, lines 96–97): reset the
failure count and schedule the next run at `now + effectiveIntervalMs + jitter`. -/
def successUpdate (sch : ResolvedSchedule) (now jitter : Int) (st : SchedulerState) :
    SchedulerState :=
  { st with failures := 0, nextRun := now + (sch.effectiveIntervalMs : Int) + jitter }

/-- The catch branch of `runSource` (`scheduler.ts`, lines 100–112): increment
the failure count, back off exponentially up to `maxBackoffMs`, and once the
failure limit is reached replace the backoff with a 24h pause (no jitter). -/
def failureUpdate (sch : ResolvedSchedule) (now jitter : Int) (st : SchedulerState) :
    SchedulerState :=
  let failures := st.failures + 1
  let backoffMs :=
    Nat.min (sch.effectiveIntervalMs * sch.base.backoffMultiplier ^ failures)
      sch.base.maxBackoffMs
  let nextRun := now + (backoffMs : Int) + jitter
  let nextRun := if sch.base.failureLimit ≤ failures then now + (PAUSE_MS : Int) else nextRun
  { st with failures := failures, nextRun := nextRun }

/-- The synchronous head of `runSource` (`scheduler.ts`, lines 90–93): the run
is counted as dispatched and `nextRun` is immediately advanced to
`now + effectiveIntervalMs + jitter`. -/
def dispatchUpdate (sch : ResolvedSchedule) (now jitter : Int) (st : SchedulerState) :
    SchedulerState :=
  { st with active := st.active + 1,
            nextRun := now + (sch.effectiveIntervalMs : Int) + jitter }

/-- The whole-scheduler state: the global in-flight counter plus one
`SchedulerState` per source (indexed like the `sources` array). -/
structure SchedulerSim where
  inFlight : Nat
  state : List SchedulerState
deriving DecidableEq

/-- Stable insertion by key, modelling
`[...this.sources].sort((a, b) => aNext - bNext)` in `tick`. -/
def insertByKey (key : Nat → Int) (x : Nat) : List Nat → List Nat
  | [] => [x]
  | y :: ys => if key x ≤ key y then x :: y :: ys else y :: insertByKey key x ys

/-- Sort source indices ascending by key. -/
def sortByKey (key : Nat → Int) : List Nat → List Nat
  | [] => []
  | x :: xs => insertByKey key x (sortByKey key xs)

/-- The loop body of `tick` (`scheduler.ts`, lines 70–86), iterating the
sorted source indices: skip disabled sources, stop the whole tick once
`inFlight ≥ maxConcurrency`, skip sources that are not yet due, and otherwise
dispatch (which increments `inFlight` and runs the head of `runSource`). -/
def tickGo (cfgs : List ResolvedSourceConfig) (maxC : Nat) (jit : Nat → Int) (now : Int) :
    List Nat → SchedulerSim → SchedulerSim
  | [], sim => sim
  | i :: rest, sim =>
    match cfgs[i]?, sim.state[i]? with
    | some cfg, some st =>
      if cfg.enabled = false then tickGo cfgs maxC jit now rest sim
      else if maxC ≤ sim.inFlight then sim
      else if now < st.nextRun then tickGo cfgs maxC jit now rest sim
      else
        tickGo cfgs maxC jit now rest
          { inFlight := sim.inFlight + 1
            state := sim.state.set i (dispatchUpdate cfg.schedule now (jit i) st) }
    | _, _ => tickGo cfgs maxC jit now rest sim

/-- `tick` (`scheduler.ts`, lines 62–87): sort the sources by their current
`nextRun` (missing state sorts as 0) and process them in order.  `jit i` is
the jitter value `computeJitterMs` would draw for source `i`. -/
def tick (cfgs : List ResolvedSourceConfig) (maxC : Nat) (jit : Nat → Int) (now : Int)
    (sim : SchedulerSim) : SchedulerSim :=
  let key := fun i => ((sim.state[i]?).map (·.nextRun)).getD 0
  tickGo cfgs maxC jit now (sortByKey key (List.range cfgs.length)) sim

/-- The tail of `runSource` after `crawlSource` settles (`scheduler.ts`,
lines 94–125): apply the success or failure update, then the `finally` block
awaits a `sourceStatus.create` write *before* decrementing `inFlight`; when
that write rejects (`statusWriteOk = false`) the decrement is skipped.
`active` is the model's bookkeeping: the run is no longer in flight. -/
def completeRun (sch : ResolvedSchedule) (crawlOk statusWriteOk : Bool) (now jitter : Int)
    (st : SchedulerState) (inFlight : Nat) : SchedulerState × Nat :=
  let st := if crawlOk then successUpdate sch now jitter st else failureUpdate sch now jitter st
  let st := { st with active := st.active - 1 }
  (st, if statusWriteOk then inFlight - 1 else inFlight)

/-- One persisted `sourceData` row, reduced to the fields the query claims
depend on: the owning source and the collection timestamp `scrapedAt`. -/
structure DataRow where
  sourceId : Nat
  scrapedAt : Int
deriving DecidableEq

/-- Keep the row with the larger `scrapedAt` (the `orderBy: desc` pick). -/
def newerRow (acc : Option DataRow) (r : DataRow) : Option DataRow :=
  match acc with
  | none => some r
  | some b => if b.scrapedAt < r.scrapedAt then some r else some b

/-- `prisma.sourceData.findFirst({ where: { sourceId, scrapedAt: { gte: cutoff } },
orderBy: { scrapedAt: 'desc' } })`: the newest row of the source at or after
`cutoff`. -/
def findLatestSince (rows : List DataRow) (id : Nat) (cutoff : Int) : Option DataRow :=
  (rows.filter (fun r => r.sourceId == id && cutoff ≤ r.scrapedAt)).foldl newerRow none

/-- `GET /api/sources/:id/latest` (`createApiServer`, lines 62–82): 404 when
the source is unknown or disabled (`dbSource`), otherwise the newest row with
`scrapedAt ≥ now - RETENTION_WINDOW_MS`, or 404 when none.  `none` models both
404 responses. -/
def latestEndpoint (now : Int) (rows : List DataRow) (id : Nat) (dbSource : Option Bool) :
    Option DataRow :=
  match dbSource with
  | some true => findLatestSince rows id (now - (RETENTION_WINDOW_MS : Int))
  | _ => none

/-- Outcome of `GET /api/sources/:id/history` (`createApiServer`,
lines 84–124).  `invalidRange` models both 400 responses ('Invalid date
range' and 'from must be before to'); `noRows` is the 404 'No history found'. -/
inductive HistoryResult
  | notFoundSource
  | invalidRange
  | noRows
  | ok (rows : List DataRow)
deriving DecidableEq

/-- A supplied query date: `none` when the string does not parse
(`new Date(s)` is `NaN`), `some t` when it parses to instant `t`. -/
abbrev ParsedDate := Option Int

/-- The `sourceData.findMany` filter of the history handler: the rows of the
source whose `scrapedAt` lies between the clamped bounds
`max(f, now - window)` and `min(t, now)` (row order is immaterial to the
claims and left as stored). -/
def clampedRows (now : Int) (rows : List DataRow) (id : Nat) (f t : Int) : List DataRow :=
  rows.filter
    (fun r =>
      r.sourceId == id &&
        (if f < now - (RETENTION_WINDOW_MS : Int) then now - (RETENTION_WINDOW_MS : Int) else f)
          ≤ r.scrapedAt &&
        r.scrapedAt ≤ (if now < t then now else t))

/-- The core of the history handler once both dates have parsed to `f` and
`t` (`createApiServer`, lines 104–122): clamp `from` up to `now - window` and
`to` down to `now`, reject crossed bounds, and return the rows of the clamped
range or a not-found answer when there are none. -/
def historyRange (now : Int) (rows : List DataRow) (id : Nat) (f t : Int) : HistoryResult :=
  let defaultFrom := now - (RETENTION_WINDOW_MS : Int)
  let lowerBound := if f < defaultFrom then defaultFrom else f
  let upperBound := if now < t then now else t
  if upperBound < lowerBound then .invalidRange
  else
    let history := clampedRows now rows id f t
    if history.isEmpty then .noRows else .ok history

/-- `GET /api/sources/:id/history` (`createApiServer`, lines 84–124): 404 when
the source is unknown or disabled, default `from` to `now - window` and `to`
to `now`, reject unparseable dates, then run the clamped range query. -/
def historyEndpoint (now : Int) (rows : List DataRow) (id : Nat) (dbSource : Option Bool)
    (fromReq toReq : Option ParsedDate) : HistoryResult :=
  match dbSource with
  | some true =>
    let queryFrom : ParsedDate :=
      match fromReq with
      | some p => p
      | none => some (now - (RETENTION_WINDOW_MS : Int))
    let queryTo : ParsedDate := match toReq with | some p => p | none => some now
    match queryFrom, queryTo with
    | some f, some t => historyRange now rows id f t
    | _, _ => .invalidRange
  | _ => .notFoundSource

/-- One observable step of the WebSocket connect handler
(`wsServer.ts`, lines 15–56). -/
inductive WsAction
  | sendError
  | closeConn
  | onDataHandler
  | onTopicHandler
  | onCloseHandler
  | sendConnected
  | sendLatest (r : DataRow)
deriving DecidableEq

/-- `GET /ws/sources/:id` (`wsServer.ts`, lines 15–56), as the sequence of
actions the handler performs: reject unknown (`configKnown = false`) or
missing/disabled DB sources with an error message and a close; otherwise
register the `source_data:new` handler, the topic handler and the socket
close handler, send the `connected` acknowledgment, then query the newest row
within the retention window and send it as `latest` when present. -/
def wsConnect (configKnown : Bool) (dbSource : Option Bool) (rows : List DataRow)
    (id : Nat) (now : Int) : List WsAction :=
  if configKnown = false ∨ dbSource ≠ some true then
    [.sendError, .closeConn]
  else
    [.onDataHandler, .onTopicHandler, .onCloseHandler, .sendConnected] ++
      (match findLatestSince rows id (now - (RETENTION_WINDOW_MS : Int)) with
       | some r => [.sendLatest r]
       | none => [])

/-- Outcome of one selector in the extraction loop of `crawlSource`
(`crawler.ts`, lines 49–60): `found v` when `waitFor` and the read succeed
(`v = none` models a `null` attribute/text), `failed` when either throws. -/
inductive SelectorOutcome
  | found (v : Option String)
  | failed
deriving DecidableEq

/-- The extraction loop (`crawler.ts`, lines 48–60): each selector yields
`value?.toString().trim() ?? null`, and a selector that throws is caught in
place and recorded as `null`; the loop always continues. -/
def extractRaw : List SelectorOutcome → List (Option String)
  | [] => []
  | .found v :: rest => v.map String.trim :: extractRaw rest
  | .failed :: rest => none :: extractRaw rest

/-- The environment of one `crawlSource` run: which store writes succeed,
whether navigation succeeds, the per-selector outcomes, and the output
validation predicate (`outputParser.parse` together with `applyParsers`,
abstracted as a predicate on the raw field values, `crawler.ts` lines 62–67). -/
structure CrawlEnv where
  runningStatusOk : Bool
  markRunningOk : Bool
  navOk : Bool
  selectorOutcomes : List SelectorOutcome
  validate : List (Option String) → Bool
  dataCreateOk : Bool
  successStatusOk : Bool
  successUpdateOk : Bool

/-- Result of one `crawlSource` run: how many `sourceData` rows were created
and whether the promise resolved (`ok = false` means it rejected). -/
structure CrawlResult where
  dataPointsPersisted : Nat
  ok : Bool
deriving DecidableEq

/-- `crawlSource` (`crawler.ts`, lines 15–140) as a straight-line function of
its environment: the `running` status write and the `lastRunAt` update happen
before the `try`; navigation, extraction, validation and the `sourceData`
write happen inside it; a throw anywhere is re-thrown by the catch block after
recording the error, so the run rejects.  The single `sourceData.create` at
line 78 is the only data write; the `success` status write and final source
update happen after it, so their failure rejects the run with the row already
persisted. -/
def crawlSource (env : CrawlEnv) : CrawlResult :=
  if env.runningStatusOk = false then ⟨0, false⟩
  else if env.markRunningOk = false then ⟨0, false⟩
  else if env.navOk = false then ⟨0, false⟩
  else
    let raw := extractRaw env.selectorOutcomes
    if env.validate raw = false then ⟨0, false⟩
    else if env.dataCreateOk = false then ⟨0, false⟩
    else if env.successStatusOk = false then ⟨1, false⟩
    else if env.successUpdateOk = false then ⟨1, false⟩
    else ⟨1, true⟩

/-- C3: for every source configuration the resolved `effectiveIntervalMs`
equals `max(20000, schedule.intervalMs)`; a configured interval of 5000
resolves to 20000 and one of 30000 resolves to 30000. -/
theorem resolved_effective_interval_is_floor_max :
    (∀ cfg : SourceConfig,
      (resolveSourceConfig cfg).schedule.effectiveIntervalMs =
        Nat.max 20000 cfg.schedule.intervalMs) ∧
    (∀ cfg : SourceConfig, cfg.schedule.intervalMs = 5000 →
      (resolveSourceConfig cfg).schedule.effectiveIntervalMs = 20000) ∧
    (∀ cfg : SourceConfig, cfg.schedule.intervalMs = 30000 →
      (resolveSourceConfig cfg).schedule.effectiveIntervalMs = 30000) := by
  refine ⟨fun cfg => rfl, fun cfg h => ?_, fun cfg h => ?_⟩ <;>
    simp [resolveSourceConfig, MIN_CRAWL_INTERVAL_MS, h]

/-- Witness for `resolved_effective_interval_is_floor_max` at configured
intervals 5000 and 30000. -/
theorem resolved_effective_interval_is_floor_max_witness :
    (resolveSourceConfig ⟨1, true, true, ⟨5000, 0, 2, 3600000, 5⟩⟩).schedule.effectiveIntervalMs
        = 20000 ∧
    (resolveSourceConfig ⟨1, true, true, ⟨30000, 0, 2, 3600000, 5⟩⟩).schedule.effectiveIntervalMs
        = 30000 :=
  ⟨resolved_effective_interval_is_floor_max.2.1 _ rfl,
   resolved_effective_interval_is_floor_max.2.2 _ rfl⟩

/-- C1: after a failed run increments the consecutive-failure count to `n`,
the next run is scheduled `min(effectiveIntervalMs * backoffMultiplier^n,
maxBackoffMs) + jitter` after now while `n` is below the failure limit, and
`24h` after now once `n` reaches it; with multiplier 2, cap 3600000, effective
interval 20000 and jitter 0, failures 1..5 give delays 40000, 80000, 160000,
320000 and 86400000. -/
theorem failure_backoff_below_limit_then_24h_pause :
    (∀ (sch : ResolvedSchedule) (st : SchedulerState) (now jitter : Int),
      (failureUpdate sch now jitter st).failures = st.failures + 1 ∧
      (st.failures + 1 < sch.base.failureLimit →
        (failureUpdate sch now jitter st).nextRun =
          now + ((Nat.min (sch.effectiveIntervalMs *
              sch.base.backoffMultiplier ^ (st.failures + 1)) sch.base.maxBackoffMs : Nat) : Int)
            + jitter) ∧
      (sch.base.failureLimit ≤ st.failures + 1 →
        (failureUpdate sch now jitter st).nextRun = now + (PAUSE_MS : Int))) ∧
    (List.map
        (fun k =>
          ((fun st => failureUpdate ⟨⟨20000, 0, 2, 3600000, 5⟩, 20000⟩ 0 0 st)^[k]
            ⟨0, 0, 0⟩).nextRun)
        [1, 2, 3, 4, 5] = [40000, 80000, 160000, 320000, 86400000]) := by
  refine ⟨fun sch st now jitter => ⟨rfl, fun h => ?_, fun h => ?_⟩, by decide⟩
  · simp only [failureUpdate]
    rw [if_neg (by omega)]
  · simp only [failureUpdate]
    rw [if_pos h]

/-- Witness for `failure_backoff_below_limit_then_24h_pause`: the first and
fifth failure of the Scenario B schedule. -/
theorem failure_backoff_below_limit_then_24h_pause_witness :
    ((0 : Nat) + 1 < 5 ∧
      (failureUpdate ⟨⟨20000, 0, 2, 3600000, 5⟩, 20000⟩ 0 0 ⟨0, 0, 0⟩).nextRun = 40000) ∧
    (5 ≤ (4 : Nat) + 1 ∧
      (failureUpdate ⟨⟨20000, 0, 2, 3600000, 5⟩, 20000⟩ 0 0 ⟨0, 4, 0⟩).nextRun = 86400000) :=
  ⟨⟨by decide,
    (failure_backoff_below_limit_then_24h_pause.1 _ ⟨0, 0, 0⟩ 0 0).2.1 (by decide)⟩,
   ⟨by decide,
    (failure_backoff_below_limit_then_24h_pause.1 _ ⟨0, 4, 0⟩ 0 0).2.2 (by decide)⟩⟩

/-- C8: a single successful run resets the consecutive-failure count to 0 and
schedules the next run at `now + effectiveIntervalMs + jitter`, no matter how
many failures (or what pause-level `nextRun`) preceded it. -/
theorem success_resets_failures_and_pause :
    ∀ (sch : ResolvedSchedule) (st : SchedulerState) (now jitter : Int),
      (successUpdate sch now jitter st).failures = 0 ∧
      (successUpdate sch now jitter st).nextRun =
        now + (sch.effectiveIntervalMs : Int) + jitter ∧
      (∀ (failures : Nat) (paused : Int),
        successUpdate sch now jitter { st with failures := failures, nextRun := paused } =
          successUpdate sch now jitter st) := by
  intro sch st now jitter
  exact ⟨rfl, rfl, fun _ _ => rfl⟩

/-- C2 (failing run of the code): the tick loop keeps no per-source in-flight
flag, so a run that is still executing when `nextRun` arrives is dispatched a
second time.  One enabled source (effective interval 20000, jitter 0,
`maxConcurrency = 2` as in `index.ts`): the tick at t=0 dispatches it, no
completion occurs, and the tick at t=20000 dispatches it again — two
overlapping runs of the same source (`active = 2`, `inFlight = 2`). -/
theorem tick_redispatches_unfinished_run :
    (((tick [⟨0, true, ⟨⟨20000, 0, 2, 3600000, 5⟩, 20000⟩⟩] 2 (fun _ => 0) 20000
        (tick [⟨0, true, ⟨⟨20000, 0, 2, 3600000, 5⟩, 20000⟩⟩] 2 (fun _ => 0) 0
          ⟨0, [⟨0, 0, 0⟩]⟩)).state[0]?).map (·.active) = some 2) ∧
    (tick [⟨0, true, ⟨⟨20000, 0, 2, 3600000, 5⟩, 20000⟩⟩] 2 (fun _ => 0) 20000
        (tick [⟨0, true, ⟨⟨20000, 0, 2, 3600000, 5⟩, 20000⟩⟩] 2 (fun _ => 0) 0
          ⟨0, [⟨0, 0, 0⟩]⟩)).inFlight = 2 := by
  decide

/-- C4 (failing run of the code): the `finally` block of `runSource` awaits
the `sourceStatus.create` write before `inFlight -= 1`, so when that write
rejects the decrement is skipped and the slot leaks; only when it resolves is
the counter decremented (then exactly once). -/
theorem status_write_failure_leaks_inflight_slot :
    ∀ (sch : ResolvedSchedule) (crawlOk : Bool) (now jitter : Int)
      (st : SchedulerState) (n : Nat),
      (completeRun sch crawlOk false now jitter st (n + 1)).2 = n + 1 ∧
      (completeRun sch crawlOk true now jitter st (n + 1)).2 = n := by
  intro sch crawlOk now jitter st n
  exact ⟨rfl, rfl⟩

/-- The `findFirst ... orderBy desc` fold only ever returns an element of the
filtered list, so any property of all filtered elements holds of the result. -/
theorem foldl_newerRow_pick {P : DataRow → Prop} :
    ∀ (l : List DataRow) (acc : Option DataRow),
      (∀ x ∈ l, P x) → (∀ b, acc = some b → P b) →
      ∀ r, l.foldl newerRow acc = some r → P r := by
  intro l
  induction l with
  | nil => intro acc _ hacc r hr; exact hacc r hr
  | cons x xs ih =>
    intro acc hl hacc r hr
    refine ih _ (fun y hy => hl y (List.mem_cons_of_mem _ hy)) ?_ r hr
    intro b hb
    have hx : P x := hl x (List.mem_cons_self x xs)
    match acc, hb with
    | none, hb =>
      rw [show newerRow none x = some x from rfl, Option.some.injEq] at hb
      exact hb ▸ hx
    | some c, hb =>
      rw [show newerRow (some c) x =
            (if c.scrapedAt < x.scrapedAt then some x else some c) from rfl] at hb
      by_cases hlt : c.scrapedAt < x.scrapedAt
      · rw [if_pos hlt, Option.some.injEq] at hb
        exact hb ▸ hx
      · rw [if_neg hlt, Option.some.injEq] at hb
        exact hb ▸ hacc c rfl

/-- A row returned by `findLatestSince` lies at or after the cutoff. -/
theorem findLatestSince_cutoff_le {rows : List DataRow} {id : Nat} {cutoff : Int}
    {r : DataRow} (h : findLatestSince rows id cutoff = some r) : cutoff ≤ r.scrapedAt := by
  refine foldl_newerRow_pick (P := fun r => cutoff ≤ r.scrapedAt) _ none ?_ (by simp) r h
  intro x hx
  rw [List.mem_filter] at hx
  have hp := hx.2
  simp only [Bool.and_eq_true, decide_eq_true_eq, beq_iff_eq] at hp
  exact hp.2

/-- Rows returned by the clamped range query lie within
`[now - retentionWindow, now]`. -/
theorem historyRange_ok_bounds {now : Int} {rows : List DataRow} {id : Nat} {f t : Int}
    {out : List DataRow} (h : historyRange now rows id f t = .ok out) :
    ∀ r ∈ out, now - (RETENTION_WINDOW_MS : Int) ≤ r.scrapedAt ∧ r.scrapedAt ≤ now := by
  intro r hr
  simp only [historyRange, clampedRows] at h
  split_ifs at h
  all_goals
    injection h with hout
    rw [← hout, List.mem_filter] at hr
    simp only [Bool.and_eq_true, decide_eq_true_eq, beq_iff_eq] at hr
    omega

/-- An `ok` answer of the history endpoint comes from the clamped range query
at some parsed pair of dates. -/
theorem historyEndpoint_ok_elim {now : Int} {rows : List DataRow} {id : Nat}
    {db : Option Bool} {fromReq toReq : Option ParsedDate} {out : List DataRow}
    (h : historyEndpoint now rows id db fromReq toReq = .ok out) :
    ∃ f t, historyRange now rows id f t = .ok out := by
  rcases db with _ | b
  · exact HistoryResult.noConfusion h
  cases b
  · exact HistoryResult.noConfusion h
  rcases fromReq with _ | p
  · rcases toReq with _ | q
    · exact ⟨_, _, h⟩
    · rcases q with _ | t
      · exact HistoryResult.noConfusion h
      · exact ⟨_, _, h⟩
  · rcases p with _ | f
    · rcases toReq with _ | q
      · exact HistoryResult.noConfusion h
      · rcases q with _ | t
        · exact HistoryResult.noConfusion h
        · exact HistoryResult.noConfusion h
    · rcases toReq with _ | q
      · exact ⟨_, _, h⟩
      · rcases q with _ | t
        · exact HistoryResult.noConfusion h
        · exact ⟨_, _, h⟩

/-- C5: neither `latest` (HTTP or WebSocket) nor `history` ever returns a
DataPoint whose collection time is older than `now - retentionWindow`, however
stale the stored rows are; in particular `latest` at t=18000000 for a source
whose only row was collected at t=0 (five hours earlier, window four hours)
answers "not found" although the row is still stored. -/
theorem queries_clamp_to_retention_window :
    (∀ (now : Int) (rows : List DataRow) (id : Nat) (db : Option Bool) (r : DataRow),
      latestEndpoint now rows id db = some r →
        now - (RETENTION_WINDOW_MS : Int) ≤ r.scrapedAt) ∧
    (∀ (now : Int) (rows : List DataRow) (id : Nat) (db : Option Bool)
        (fromReq toReq : Option ParsedDate) (out : List DataRow) (r : DataRow),
      historyEndpoint now rows id db fromReq toReq = .ok out → r ∈ out →
        now - (RETENTION_WINDOW_MS : Int) ≤ r.scrapedAt) ∧
    (∀ (configKnown : Bool) (db : Option Bool) (rows : List DataRow) (id : Nat)
        (now : Int) (r : DataRow),
      WsAction.sendLatest r ∈ wsConnect configKnown db rows id now →
        now - (RETENTION_WINDOW_MS : Int) ≤ r.scrapedAt) ∧
    latestEndpoint 18000000 [⟨1, 0⟩] 1 (some true) = none := by
  refine ⟨?_, ?_, ?_, by decide⟩
  · intro now rows id db r h
    rcases db with _ | b
    · exact Option.noConfusion h
    cases b
    · exact Option.noConfusion h
    · exact findLatestSince_cutoff_le h
  · intro now rows id db fromReq toReq out r hok hmem
    obtain ⟨f, t, h⟩ := historyEndpoint_ok_elim hok
    exact (historyRange_ok_bounds h r hmem).1
  · intro configKnown db rows id now r hmem
    by_cases hrej : configKnown = false ∨ db ≠ some true
    · rw [wsConnect, if_pos hrej] at hmem
      simp at hmem
    · rw [wsConnect, if_neg hrej] at hmem
      rcases hfl : findLatestSince rows id (now - (RETENTION_WINDOW_MS : Int)) with _ | x
      · rw [hfl] at hmem
        simp at hmem
      · rw [hfl] at hmem
        simp at hmem
        exact hmem ▸ findLatestSince_cutoff_le hfl

/-- Witness for `queries_clamp_to_retention_window`: a row collected at
t=100 is served by `latest` at t=14400000 and indeed lies within the window. -/
theorem queries_clamp_to_retention_window_witness :
    latestEndpoint 14400000 [⟨1, 100⟩] 1 (some true) = some ⟨1, 100⟩ ∧
    (14400000 : Int) - (RETENTION_WINDOW_MS : Int) ≤ (100 : Int) :=
  ⟨by decide,
   queries_clamp_to_retention_window.1 14400000 [⟨1, 100⟩] 1 (some true) ⟨1, 100⟩ (by decide)⟩

/-- C6 (failing run of the code): on a successful connect the handler
registers the `update` listeners *first* (positions 0–1), and only then sends
the `connected` acknowledgment (position 3) and the `latest` message — not in
the claimed order connected → latest → register. -/
theorem ws_listener_registered_before_connected_ack :
    wsConnect true (some true) [⟨1, 16000000⟩] 1 16000001 =
      [.onDataHandler, .onTopicHandler, .onCloseHandler, .sendConnected,
       .sendLatest ⟨1, 16000000⟩] ∧
    List.indexOf WsAction.onTopicHandler
        (wsConnect true (some true) [⟨1, 16000000⟩] 1 16000001) = 1 ∧
    List.indexOf WsAction.sendConnected
        (wsConnect true (some true) [⟨1, 16000000⟩] 1 16000001) = 3 := by
  decide

/-- C6 amended: a connect to an unknown or disabled source is rejected with
an error and a close before anything else (no listener registered); a connect
to a known, enabled source first registers the update/topic/close handlers,
then emits the `connected` acknowledgment, then queries the newest DataPoint
within the retention window and emits it as `latest` when present (nothing
after `connected` otherwise). -/
theorem ws_connect_protocol :
    ∀ (configKnown : Bool) (db : Option Bool) (rows : List DataRow) (id : Nat) (now : Int),
      (configKnown = false ∨ db ≠ some true →
        wsConnect configKnown db rows id now = [.sendError, .closeConn]) ∧
      (configKnown = true → db = some true →
        (wsConnect configKnown db rows id now).take 4 =
          [.onDataHandler, .onTopicHandler, .onCloseHandler, .sendConnected] ∧
        (∀ r, WsAction.sendLatest r ∈ wsConnect configKnown db rows id now →
          findLatestSince rows id (now - (RETENTION_WINDOW_MS : Int)) = some r) ∧
        (findLatestSince rows id (now - (RETENTION_WINDOW_MS : Int)) = none →
          wsConnect configKnown db rows id now =
            [.onDataHandler, .onTopicHandler, .onCloseHandler, .sendConnected])) := by
  intro configKnown db rows id now
  constructor
  · intro h
    rw [wsConnect, if_pos h]
  · intro hk hdb
    have hrej : ¬(configKnown = false ∨ db ≠ some true) := by simp [hk, hdb]
    refine ⟨?_, ?_, ?_⟩
    · rw [wsConnect, if_neg hrej]
      rcases findLatestSince rows id (now - (RETENTION_WINDOW_MS : Int)) with _ | x <;> rfl
    · intro r hmem
      rw [wsConnect, if_neg hrej] at hmem
      rcases hfl : findLatestSince rows id (now - (RETENTION_WINDOW_MS : Int)) with _ | x
      · rw [hfl] at hmem
        simp at hmem
      · rw [hfl] at hmem
        simp at hmem
        subst hmem
        rfl
    · intro hfl
      rw [wsConnect, if_neg hrej, hfl]
      rfl

/-- Witness for `ws_connect_protocol`: a rejected unknown source and an
accepted source with no stored data. -/
theorem ws_connect_protocol_witness :
    wsConnect false (some true) [] 1 0 = [.sendError, .closeConn] ∧
    (wsConnect true (some true) [] 1 0).take 4 =
      [.onDataHandler, .onTopicHandler, .onCloseHandler, .sendConnected] :=
  ⟨(ws_connect_protocol false (some true) [] 1 0).1 (Or.inl rfl),
   ((ws_connect_protocol true (some true) [] 1 0).2 rfl rfl).1⟩

/-- C7 (failing run of the code): a parseable request with `from ≤ to`
(1000000 ≤ 2000000) is answered "invalid range" because both instants lie
before `now - retentionWindow` — the crossed-bounds check runs after
clamping — even though a row (at 1500000) exists in the requested range. -/
theorem history_ordered_range_answered_invalid :
    historyEndpoint 20000000 [⟨1, 1500000⟩] 1 (some true)
        (some (some 1000000)) (some (some 2000000)) = .invalidRange ∧
    (1000000 : Int) ≤ 2000000 := by
  decide

/-- With an enabled source and both dates parsed, the history endpoint is the
clamped range query. -/
theorem historyEndpoint_parsed (now : Int) (rows : List DataRow) (id : Nat) (f t : Int) :
    historyEndpoint now rows id (some true) (some (some f)) (some (some t)) =
      historyRange now rows id f t := rfl

/-- C7 amended: for a known, enabled source the history operation answers
"invalid range" iff a supplied date is unparseable or the *clamped* bounds
cross, i.e. `min(to, now) < max(from, now - retentionWindow)`; `from > to`
still always yields "invalid range", but a parseable, ordered range can also
be rejected when it lies entirely outside the window.  When the clamped
bounds do not cross, the answer is the rows of the clamped range, or
"not found" when that range holds no rows. -/
theorem history_invalid_iff_unparseable_or_crossed_clamp :
    ∀ (now : Int) (rows : List DataRow) (id : Nat) (f t : Int),
      (∀ toReq, historyEndpoint now rows id (some true) (some none) toReq = .invalidRange) ∧
      (∀ fromReq, historyEndpoint now rows id (some true) fromReq (some none) = .invalidRange) ∧
      (historyEndpoint now rows id (some true) (some (some f)) (some (some t)) = .invalidRange
        ↔ (if now < t then now else t) <
            (if f < now - (RETENTION_WINDOW_MS : Int) then now - (RETENTION_WINDOW_MS : Int)
             else f)) ∧
      (t < f →
        historyEndpoint now rows id (some true) (some (some f)) (some (some t)) =
          .invalidRange) ∧
      (¬ ((if now < t then now else t) <
            (if f < now - (RETENTION_WINDOW_MS : Int) then now - (RETENTION_WINDOW_MS : Int)
             else f)) →
        (historyEndpoint now rows id (some true) (some (some f)) (some (some t)) =
            .ok (clampedRows now rows id f t) ∧ clampedRows now rows id f t ≠ []) ∨
        (historyEndpoint now rows id (some true) (some (some f)) (some (some t)) =
            .noRows ∧ clampedRows now rows id f t = [])) := by
  intro now rows id f t
  refine ⟨?_, ?_, ?_, ?_, ?_⟩
  · intro toReq
    rcases toReq with _ | q
    · rfl
    · rcases q with _ | u <;> rfl
  · intro fromReq
    rcases fromReq with _ | p
    · rfl
    · rcases p with _ | u <;> rfl
  · constructor
    · intro h
      by_contra hc
      rw [historyEndpoint_parsed] at h
      simp only [historyRange] at h
      rw [if_neg hc] at h
      by_cases he : (clampedRows now rows id f t).isEmpty
      · rw [if_pos he] at h
        exact HistoryResult.noConfusion h
      · rw [if_neg he] at h
        exact HistoryResult.noConfusion h
    · intro hc
      rw [historyEndpoint_parsed]
      simp only [historyRange]
      rw [if_pos hc]
  · intro hlt
    rw [historyEndpoint_parsed]
    simp only [historyRange]
    rw [if_pos (by split_ifs <;> omega)]
  · intro hc
    rw [historyEndpoint_parsed]
    simp only [historyRange]
    rw [if_neg hc]
    by_cases he : (clampedRows now rows id f t).isEmpty
    · rw [if_pos he]
      exact Or.inr ⟨rfl, List.isEmpty_iff.mp he⟩
    · rw [if_neg he]
      exact Or.inl ⟨rfl, fun hnil => he (by rw [hnil]; rfl)⟩

/-- Witness for `history_invalid_iff_unparseable_or_crossed_clamp`: a
`from > to` request is rejected, and an ordered in-window request with one
matching row is answered with that row. -/
theorem history_invalid_iff_unparseable_or_crossed_clamp_witness :
    ((3 : Int) < 5 ∧
      historyEndpoint 0 [] 1 (some true) (some (some 5)) (some (some 3)) = .invalidRange) ∧
    (historyEndpoint 14400000 [⟨1, 100⟩] 1 (some true)
        (some (some 0)) (some (some 14400000)) =
      .ok (clampedRows 14400000 [⟨1, 100⟩] 1 0 14400000) ∧
      clampedRows 14400000 [⟨1, 100⟩] 1 0 14400000 ≠ []) :=
  ⟨⟨by decide,
    (history_invalid_iff_unparseable_or_crossed_clamp 0 [] 1 5 3).2.2.2.1 (by decide)⟩,
   ((history_invalid_iff_unparseable_or_crossed_clamp 14400000 [⟨1, 100⟩] 1 0
        14400000).2.2.2.2 (by decide)).resolve_right (by decide)⟩

/-- C9: a run of the crawl executor persists exactly one DataPoint when it
succeeds, and none when it fails before the `sourceData` write — a navigation
error, a validation failure, or a persistence error at or before the data
write (the pre-run status write, the `lastRunAt` update, or the data create
itself). -/
theorem one_datapoint_per_successful_run :
    ∀ env : CrawlEnv,
      ((crawlSource env).ok = true → (crawlSource env).dataPointsPersisted = 1) ∧
      ((env.runningStatusOk && env.markRunningOk && env.navOk &&
          env.validate (extractRaw env.selectorOutcomes) && env.dataCreateOk) = false →
        (crawlSource env).ok = false ∧ (crawlSource env).dataPointsPersisted = 0) := by
  intro env
  rcases env with ⟨r0, m0, n0, outs, val, d0, s0, u0⟩
  cases r0 <;> cases m0 <;> cases n0 <;> cases hv : val (extractRaw outs) <;>
    cases d0 <;> cases s0 <;> cases u0 <;> simp [crawlSource, hv]

/-- Witness for `one_datapoint_per_successful_run`: a fully successful run
persists one row; a run with a navigation failure persists none. -/
theorem one_datapoint_per_successful_run_witness :
    (crawlSource ⟨true, true, true, [], fun _ => true, true, true, true⟩).ok = true ∧
    (crawlSource ⟨true, true, true, [], fun _ => true, true, true, true⟩).dataPointsPersisted
        = 1 ∧
    (crawlSource ⟨true, true, false, [], fun _ => true, true, true, true⟩).ok = false ∧
    (crawlSource ⟨true, true, false, [], fun _ => true, true, true, true⟩).dataPointsPersisted
        = 0 :=
  ⟨rfl,
   (one_datapoint_per_successful_run ⟨true, true, true, [], fun _ => true, true, true, true⟩).1
     rfl,
   ((one_datapoint_per_successful_run
       ⟨true, true, false, [], fun _ => true, true, true, true⟩).2 rfl).1,
   ((one_datapoint_per_successful_run
       ⟨true, true, false, [], fun _ => true, true, true, true⟩).2 rfl).2⟩

/-- The extraction loop maps each selector outcome in place: a caught failure
becomes a `null` field, a read value is trimmed. -/
theorem extractRaw_getElem (l : List SelectorOutcome) (i : Nat) :
    (extractRaw l)[i]? =
      (l[i]?).map fun o =>
        match o with
        | .found v => v.map String.trim
        | .failed => none := by
  induction l generalizing i with
  | nil => simp [extractRaw]
  | cons x xs ih => cases x <;> cases i <;> simp [extractRaw, ih]

/-- C10: a single selector's failure (timeout or read error) does not fail
the run: that field is recorded as `null`, every other selector's field is
still extracted, and if the output validation accepts the resulting values
the run succeeds and persists its DataPoint. -/
theorem selector_failure_is_nonfatal :
    ∀ (env : CrawlEnv) (i : Nat),
      env.selectorOutcomes[i]? = some .failed →
      env.runningStatusOk = true → env.markRunningOk = true → env.navOk = true →
      env.validate (extractRaw env.selectorOutcomes) = true →
      env.dataCreateOk = true → env.successStatusOk = true → env.successUpdateOk = true →
      (extractRaw env.selectorOutcomes)[i]? = some none ∧
      (∀ (j : Nat) (v : Option String), env.selectorOutcomes[j]? = some (.found v) →
        (extractRaw env.selectorOutcomes)[j]? = some (v.map String.trim)) ∧
      (crawlSource env).ok = true ∧ (crawlSource env).dataPointsPersisted = 1 := by
  intro env i hfail h1 h2 h3 hv h4 h5 h6
  refine ⟨?_, ?_, ?_, ?_⟩
  · rw [extractRaw_getElem, hfail]
    rfl
  · intro j v hj
    rw [extractRaw_getElem, hj]
    rfl
  · simp [crawlSource, h1, h2, h3, hv, h4, h5, h6]
  · simp [crawlSource, h1, h2, h3, hv, h4, h5, h6]

/-- Witness for `selector_failure_is_nonfatal`: one failing selector, a
validator that accepts, all writes succeeding. -/
theorem selector_failure_is_nonfatal_witness :
    (extractRaw [SelectorOutcome.failed])[0]? = some none ∧
    (crawlSource ⟨true, true, true, [SelectorOutcome.failed],
        fun _ => true, true, true, true⟩).ok = true ∧
    (crawlSource ⟨true, true, true, [SelectorOutcome.failed],
        fun _ => true, true, true, true⟩).dataPointsPersisted = 1 := by
  have h := selector_failure_is_nonfatal
    ⟨true, true, true, [SelectorOutcome.failed], fun _ => true, true, true, true⟩ 0
    rfl rfl rfl rfl rfl rfl rfl rfl
  exact ⟨h.1, h.2.2.1, h.2.2.2⟩
